import Mathlib

/-!
Verification of the carbon-footprint calculator (`app.py`).

The numeric model uses `ℚ` for the Python floats: every formula in the
source is a fixed composition of additions, multiplications and divisions
of the input values, and each claim below is about the algebraic structure
of those formulas, which `ℚ` represents exactly.  Streamlit widgets are
modelled by the values they produce; the widget `min_value` bounds appear
as hypotheses.  Fallible code (SQLite access, JSON field access) is
modelled with `Except` / `Option`.
-/

namespace CarbonApp

/-- The emission-factor table from `app.py` lines 128-136
(kg CO₂e per unit of activity). -/
def EMISSION_FACTORS : List (String × ℚ) :=
  [ ("mile_driven", 0.404)
  , ("km_driven", 0.251)
  , ("beef_kg", 27.0)
  , ("chicken_kg", 6.9)
  , ("flight_km", 0.115)
  , ("bus_km", 0.089)
  , ("shopping_usd", 0.6) ]

/-- Python dict indexing `EMISSION_FACTORS[k]`; every key the source uses is
present in the table, so the `getD 0` default is never reached. -/
def EF (k : String) : ℚ := ((EMISSION_FACTORS.lookup k).getD 0)

/-- The `distance_unit` radio button (`app.py` line 151). -/
inductive DistanceUnit
  | km
  | miles
deriving DecidableEq

/-- The `currency` radio button (`app.py` line 157). -/
inductive Currency
  | NGN
  | USD
deriving DecidableEq

/-- One run's sidebar inputs.  For the distance and spend widgets only the
branch matching the selected unit/currency is rendered, so there is a single
entered distance value (`distance_value`) and, for spend, either the USD value
or the NGN value with its FX rate.  `selected_grid_factor` is the already
resolved grid factor (preset lookup or custom entry, `app.py` lines 198-210). -/
structure RawInputs where
  distance_unit : DistanceUnit
  distance_value : ℚ
  flight_km_per_year : ℚ
  bus_km_per_week : ℚ
  selected_grid_factor : ℚ
  kwh_per_month : ℚ
  beef_kg_per_week : ℚ
  chicken_kg_per_week : ℚ
  currency : Currency
  usd_value : ℚ
  ngn_per_month : ℚ
  fx_rate : ℚ

/-- `miles_per_week`: initialised to `0.0` and overwritten by the widget only
when miles is the selected unit (`app.py` lines 167-175). -/
def miles_per_week (i : RawInputs) : ℚ :=
  if i.distance_unit = DistanceUnit.miles then i.distance_value else 0

/-- `km_per_week`: initialised to `0.0` and overwritten by the widget only
when km is the selected unit (`app.py` lines 168-182). -/
def km_per_week (i : RawInputs) : ℚ :=
  if i.distance_unit = DistanceUnit.miles then 0 else i.distance_value

/-- `car_per_week_kg` (`app.py` lines 175 and 182). -/
def car_per_week_kg (i : RawInputs) : ℚ :=
  if i.distance_unit = DistanceUnit.miles then
    miles_per_week i * EF ("mile_driven")
  else
    km_per_week i * EF ("km_driven")

/-- `spend_usd` (`app.py` lines 233-250): entered directly in USD, or as
NGN divided by the FX rate. -/
def spend_usd (i : RawInputs) : ℚ :=
  if i.currency = Currency.USD then i.usd_value else i.ngn_per_month / i.fx_rate

/-- `transport_total` (`app.py` lines 285-289). -/
def transport_total (i : RawInputs) : ℚ :=
  car_per_week_kg i * 52 +
  i.flight_km_per_year * EF ("flight_km") +
  i.bus_km_per_week * 52 * EF ("bus_km")

/-- `electricity_total` (`app.py` line 291). -/
def electricity_total (i : RawInputs) : ℚ :=
  i.kwh_per_month * 12 * i.selected_grid_factor

/-- `diet_total` (`app.py` lines 293-296). -/
def diet_total (i : RawInputs) : ℚ :=
  i.beef_kg_per_week * 52 * EF ("beef_kg") +
  i.chicken_kg_per_week * 52 * EF ("chicken_kg")

/-- `shopping_total` (`app.py` line 298). -/
def shopping_total (i : RawInputs) : ℚ :=
  spend_usd i * 12 * EF ("shopping_usd")

/-- `grand_total_kg` (`app.py` line 300). -/
def grand_total_kg (i : RawInputs) : ℚ :=
  transport_total i + electricity_total i + diet_total i + shopping_total i

/-- `grand_total_t` (`app.py` line 301). -/
def grand_total_t (i : RawInputs) : ℚ := grand_total_kg i / 1000

/-- Daily projection `grand_total_kg/365` (`app.py` lines 312 and 413). -/
def daily_kg (i : RawInputs) : ℚ := grand_total_kg i / 365

/-- Weekly projection `grand_total_kg/52` (`app.py` lines 313 and 414). -/
def weekly_kg (i : RawInputs) : ℚ := grand_total_kg i / 52

/-- Monthly projection `grand_total_kg/12` (`app.py` lines 314 and 415). -/
def monthly_kg (i : RawInputs) : ℚ := grand_total_kg i / 12

/-- Modelled from the spec: `transport_kg = car_weekly_kg * 52 +
flight_km_year * 0.115 + bus_km_week * 52 * 0.089` (spec §4.1), stated with
the literal constants, for comparison with `transport_total`. -/
def spec_transport_kg (car_weekly_kg flight_km_year bus_km_week : ℚ) : ℚ :=
  car_weekly_kg * 52 + flight_km_year * 0.115 + bus_km_week * 52 * 0.089

/-- Modelled from the spec: `electricity_kg = kwh_month * 12 * grid_factor`
(spec §4.1). -/
def spec_electricity_kg (kwh_month grid_factor : ℚ) : ℚ :=
  kwh_month * 12 * grid_factor

/-- Modelled from the spec: `diet_kg = beef_kg_week * 52 * 27.0 +
chicken_kg_week * 52 * 6.9` (spec §4.1). -/
def spec_diet_kg (beef_kg_week chicken_kg_week : ℚ) : ℚ :=
  beef_kg_week * 52 * 27.0 + chicken_kg_week * 52 * 6.9

/-- Modelled from the spec: `shopping_kg = spend_usd_month * 12 * 0.6`
(spec §4.1). -/
def spec_shopping_kg (spend_usd_month : ℚ) : ℚ :=
  spend_usd_month * 12 * 0.6

/-- The widget `min_value` bounds from the sidebar (`app.py` lines 164-250):
every numeric input has `min_value=0.0` except the FX rate, whose
`min_value` is `1.0`. -/
def NonnegInputs (i : RawInputs) : Prop :=
  0 ≤ i.distance_value ∧ 0 ≤ i.flight_km_per_year ∧ 0 ≤ i.bus_km_per_week ∧
  0 ≤ i.selected_grid_factor ∧ 0 ≤ i.kwh_per_month ∧ 0 ≤ i.beef_kg_per_week ∧
  0 ≤ i.chicken_kg_per_week ∧ 0 ≤ i.usd_value ∧ 0 ≤ i.ngn_per_month ∧
  1 ≤ i.fx_rate

instance (i : RawInputs) : Decidable (NonnegInputs i) := by
  unfold NonnegInputs; infer_instance

/-- The beef suggestion string (`app.py` line 456). -/
def beefMsg : String :=
  "Reduce beef intake or swap with chicken/plant-based options."

/-- The car-distance suggestion string (`app.py` lines 460 and 463). -/
def carMsg : String :=
  "Combine trips, carpool, or consider public transport for some journeys."

/-- The electricity suggestion string (`app.py` line 465). -/
def elecMsg : String :=
  "Improve home efficiency: LED bulbs, efficient appliances, and switch off standby loads."

/-- The flight suggestion string (`app.py` line 467). -/
def flightMsg : String :=
  "Consider train alternatives for short-haul or offset essential flights."

/-- The fallback affirmation string (`app.py` line 469). -/
def fallbackMsg : String :=
  "Nice balance of activities — keep tracking to find small improvements."

/-- The condition under which the car-distance rule fires
(`app.py` lines 458-463): the active unit's weekly distance against its own
threshold. -/
def carRuleFires (i : RawInputs) : Prop :=
  if i.distance_unit = DistanceUnit.miles then 100 < miles_per_week i
  else 160 < km_per_week i

instance (i : RawInputs) : Decidable (carRuleFires i) := by
  unfold carRuleFires; split <;> infer_instance

/-- The suggestion list built by `app.py` lines 454-469: the four rule
appends in source order, then the fallback when nothing fired. -/
def suggestions (i : RawInputs) : List String :=
  let s1 : List String := if 0.5 < i.beef_kg_per_week then [beefMsg] else []
  let s2 : List String :=
    if i.distance_unit = DistanceUnit.miles then
      if 100 < miles_per_week i then s1 ++ [carMsg] else s1
    else
      if 160 < km_per_week i then s1 ++ [carMsg] else s1
  let s3 : List String := if 200 < i.kwh_per_month then s2 ++ [elecMsg] else s2
  let s4 : List String :=
    if 3000 < i.flight_km_per_year then s3 ++ [flightMsg] else s3
  if s4 = [] then [fallbackMsg] else s4

/-- Scenario 1 of spec §8: 80 km/week car, 1000 km/year flight, 10 km/week
bus, grid factor 0.92, 150 kWh/month, 0.3 kg/week beef, 0.5 kg/week chicken,
100 USD/month spend. -/
def ex1 : RawInputs :=
  { distance_unit := DistanceUnit.km
  , distance_value := 80
  , flight_km_per_year := 1000
  , bus_km_per_week := 10
  , selected_grid_factor := 0.92
  , kwh_per_month := 150
  , beef_kg_per_week := 0.3
  , chicken_kg_per_week := 0.5
  , currency := Currency.USD
  , usd_value := 100
  , ngn_per_month := 0
  , fx_rate := 1500 }

/-- All-zero inputs (spec §8 scenario 2), km unit and USD currency. -/
def exZero : RawInputs :=
  { distance_unit := DistanceUnit.km
  , distance_value := 0
  , flight_km_per_year := 0
  , bus_km_per_week := 0
  , selected_grid_factor := 0
  , kwh_per_month := 0
  , beef_kg_per_week := 0
  , chicken_kg_per_week := 0
  , currency := Currency.USD
  , usd_value := 0
  , ngn_per_month := 0
  , fx_rate := 1 }

/-- JSON values as handled by `json.dumps` / `json.loads`.  The payloads the
app writes are flat objects of numbers and strings; `json.dumps` followed by
`json.loads` is the identity on this representation (Python round-trips the
textual form of each value exactly), so serialisation is modelled as the
identity on `JsonVal` and only field access can fail. -/
inductive JsonVal
  | num (q : ℚ)
  | str (s : String)
  | obj (fields : List (String × JsonVal))

/-- The `totals_payload` dictionary (`app.py` lines 390-397). -/
def totals_payload (i : RawInputs) : List (String × JsonVal) :=
  [ ("transport_total", JsonVal.num (transport_total i))
  , ("electricity_total", JsonVal.num (electricity_total i))
  , ("diet_total", JsonVal.num (diet_total i))
  , ("shopping_total", JsonVal.num (shopping_total i))
  , ("grand_total_kg", JsonVal.num (grand_total_kg i))
  , ("grand_total_t", JsonVal.num (grand_total_t i)) ]

/-- The `CalculationResult` value object of spec §3: the four category
subtotals and the grand totals recovered from a serialized payload. -/
structure CalculationResult where
  transport_total : ℚ
  electricity_total : ℚ
  diet_total : ℚ
  shopping_total : ℚ
  grand_total_kg : ℚ
  grand_total_t : ℚ

/-- Reading a numeric field back out of a parsed payload: fails when the key
is absent or the value is not a number. -/
def getNum (fields : List (String × JsonVal)) (k : String) : Option ℚ :=
  match fields.lookup k with
  | some (JsonVal.num q) => some q
  | _ => none

/-- Parsing a totals payload back into the `CalculationResult` fields. -/
def parse_totals (fields : List (String × JsonVal)) : Option CalculationResult := do
  let t ← getNum fields ("transport_total")
  let e ← getNum fields ("electricity_total")
  let d ← getNum fields ("diet_total")
  let s ← getNum fields ("shopping_total")
  let g ← getNum fields ("grand_total_kg")
  let gt ← getNum fields ("grand_total_t")
  pure ⟨t, e, d, s, g, gt⟩

/-- A row of the `runs` table (`app.py` lines 351-358): auto-incremented id,
UTC timestamp, and the two serialized payloads. -/
structure HistoryRecord where
  id : Nat
  timestamp : String
  inputs_json : JsonVal
  totals_json : JsonVal

/-- Largest id present in the table (0 when empty). -/
def maxId : List HistoryRecord → Nat
  | [] => 0
  | r :: rs => max r.id (maxId rs)

/-- The id SQLite AUTOINCREMENT assigns to the next inserted row: strictly
larger than every id ever used; with no delete path this is `maxId + 1`. -/
def nextId (db : List HistoryRecord) : Nat := maxId db + 1

/-- The INSERT of `save_run` (`app.py` lines 364-367): append one new row
with a fresh id. -/
def insertRun (db : List HistoryRecord) (ts : String) (ij tj : JsonVal) :
    List HistoryRecord :=
  db ++ [⟨nextId db, ts, ij, tj⟩]

/-- Failure of the backing store (`sqlite3.OperationalError` on connect). -/
inductive StorageError
  | unavailable

/-- `sqlite3.connect(DB_PATH)`: fails when the backing store is
unavailable (e.g. filesystem permission error). -/
def connectDb (avail : Bool) : Except StorageError Unit :=
  if avail then Except.ok () else Except.error StorageError.unavailable

/-- `init_db` (`app.py` lines 349-360): connect and idempotently create the
schema (`CREATE TABLE IF NOT EXISTS` leaves the data unchanged). -/
def init_db (avail : Bool) : Except StorageError Unit := connectDb avail

/-- `save_run` (`app.py` lines 362-369).  There is no try/except around the
body: a connect failure propagates to the caller. -/
def save_run (avail : Bool) (db : List HistoryRecord) (ts : String)
    (ij tj : JsonVal) : Except StorageError (List HistoryRecord) :=
  match init_db avail with
  | Except.error e => Except.error e
  | Except.ok _ => Except.ok (insertRun db ts ij tj)

/-- The `SELECT * FROM runs ORDER BY id DESC` result set. -/
def orderByIdDesc (db : List HistoryRecord) : List HistoryRecord :=
  List.insertionSort (fun a b => b.id ≤ a.id) db

/-- `load_runs` (`app.py` lines 371-375).  There is no try/except around the
body: a connect failure propagates to the caller. -/
def load_runs (avail : Bool) (db : List HistoryRecord) :
    Except StorageError (List HistoryRecord) :=
  match init_db avail with
  | Except.error e => Except.error e
  | Except.ok _ => Except.ok (orderByIdDesc db)

/-- Table states produced by the app itself: the empty table, extended by
`save_run` inserts only (no update or delete path exists). -/
inductive Reachable : List HistoryRecord → Prop
  | nil : Reachable []
  | save (ts : String) (ij tj : JsonVal) {db : List HistoryRecord} :
      Reachable db → Reachable (insertRun db ts ij tj)

instance : IsTotal HistoryRecord (fun a b => b.id ≤ a.id) :=
  ⟨fun a b => Nat.le_total b.id a.id⟩

instance : IsTrans HistoryRecord (fun a b => b.id ≤ a.id) :=
  ⟨fun _ _ _ hab hbc => le_trans hbc hab⟩

/-- One parsed row of the history table rendered at `app.py` lines 430-437.
Python stores whatever JSON value sits under each key without checking its
type, so the fields are kept as `JsonVal`. -/
structure TrendRow where
  timestamp : String
  annual_kg : JsonVal
  transport_kg : JsonVal
  electricity_kg : JsonVal
  diet_kg : JsonVal
  shopping_kg : JsonVal

/-- Python dict subscription `totals[k]` on a parsed payload: raises
`KeyError` (here: `none`) when the key is absent or the payload is not an
object. -/
def getField (j : JsonVal) (k : String) : Option JsonVal :=
  match j with
  | JsonVal.obj fields => fields.lookup k
  | _ => none

/-- Parsing one stored row inside the history loop (`app.py` lines 429-437):
`json.loads` followed by the five dict subscriptions. -/
def parse_history_row (row : HistoryRecord) : Option TrendRow := do
  let g ← getField row.totals_json ("grand_total_kg")
  let t ← getField row.totals_json ("transport_total")
  let e ← getField row.totals_json ("electricity_total")
  let d ← getField row.totals_json ("diet_total")
  let s ← getField row.totals_json ("shopping_total")
  pure ⟨row.timestamp, g, t, e, d, s⟩

/-- The history parsing loop (`app.py` lines 427-437).  The loop body has no
try/except, so the first row that fails to parse aborts the whole traversal:
`mapM`, not `filterMap`. -/
def parse_history (rows : List HistoryRecord) : Option (List TrendRow) :=
  rows.mapM parse_history_row

/-- The ways a render of the history section can fail. -/
inductive RunFailure
  | storage (e : StorageError)
  | malformed

/-- What the history section displays when it succeeds. -/
inductive HistoryView
  | table (rows : List TrendRow)
  | noHistory

/-- The history section (`app.py` lines 422-446): load all runs, show the
info notice when the table is empty, otherwise parse every row and render
the table and trend chart.  No exception is caught anywhere in the block. -/
def history_block (avail : Bool) (db : List HistoryRecord) :
    Except RunFailure HistoryView :=
  match load_runs avail db with
  | Except.error e => Except.error (RunFailure.storage e)
  | Except.ok rows =>
    if rows.isEmpty then Except.ok HistoryView.noHistory
    else
      match parse_history rows with
      | some parsed => Except.ok (HistoryView.table parsed)
      | none => Except.error RunFailure.malformed

/-- Two-row reachable table used as a witness for the ordering claim. -/
def exDb : List HistoryRecord :=
  insertRun (insertRun [] ("t1") (JsonVal.obj []) (JsonVal.obj []))
    ("t2") (JsonVal.obj []) (JsonVal.obj [])

/-- A well-formed totals payload with concrete numbers. -/
def goodTotals : JsonVal :=
  JsonVal.obj
    [ ("transport_total", JsonVal.num 1)
    , ("electricity_total", JsonVal.num 2)
    , ("diet_total", JsonVal.num 3)
    , ("shopping_total", JsonVal.num 4)
    , ("grand_total_kg", JsonVal.num 10)
    , ("grand_total_t", JsonVal.num (1 / 100)) ]

/-- A malformed totals payload: not an object, so no field can be read. -/
def badTotals : JsonVal := JsonVal.str ("not a totals object")

/-- A table holding one malformed record and one well-formed record. -/
def exDbMixed : List HistoryRecord :=
  [ ⟨1, "t1", JsonVal.obj [], badTotals⟩
  , ⟨2, "t2", JsonVal.obj [], goodTotals⟩ ]

end CarbonApp

namespace CarbonApp

/-- C1: every run computes the four category subtotals and the totals by the
spec formulas: the source expressions (emission factors fetched from the
table) coincide with the spec formulas written with the literal constants,
and `grand_total_t = grand_total_kg / 1000`. -/
theorem C1_formulas (i : RawInputs) :
    transport_total i
        = spec_transport_kg (car_per_week_kg i) i.flight_km_per_year i.bus_km_per_week ∧
    electricity_total i = spec_electricity_kg i.kwh_per_month i.selected_grid_factor ∧
    diet_total i = spec_diet_kg i.beef_kg_per_week i.chicken_kg_per_week ∧
    shopping_total i = spec_shopping_kg (spend_usd i) ∧
    grand_total_kg i
        = transport_total i + electricity_total i + diet_total i + shopping_total i ∧
    grand_total_t i = grand_total_kg i / 1000 :=
  ⟨rfl, rfl, rfl, rfl, rfl, rfl⟩

/-- C2: for all non-negative inputs, the grand total in kg is exactly the sum
of the four category subtotals, with no tolerance: `grand_total_kg` is
computed as that very sum (`app.py` line 300). -/
theorem C2_grand_total_is_sum (i : RawInputs) (h : NonnegInputs i) :
    grand_total_kg i
      = transport_total i + electricity_total i + diet_total i + shopping_total i :=
  rfl

/-- Every value of the emission-factor table is non-negative, and so is the
zero default of the lookup. -/
theorem EF_nonneg (k : String) : 0 ≤ EF k := by
  unfold EF EMISSION_FACTORS
  simp only [List.lookup]
  repeat' split
  all_goals norm_num

/-- Witness for C2 at spec scenario 1. -/
theorem C2_grand_total_is_sum_witness :
    NonnegInputs ex1 ∧
    grand_total_kg ex1
      = transport_total ex1 + electricity_total ex1 + diet_total ex1 + shopping_total ex1 :=
  ⟨by norm_num [NonnegInputs, ex1], C2_grand_total_is_sum ex1 (by norm_num [NonnegInputs, ex1])⟩

/-- C7: NGN spend `N` with FX rate `R ≥ 1` produces exactly the same
`shopping_total` as entering `N / R` directly in USD: both paths feed the
same `spend_usd` value into `app.py` line 298. -/
theorem C7_currency_equivalence (i : RawInputs) (N R : ℚ) (hR : 1 ≤ R) :
    shopping_total { i with currency := Currency.NGN, ngn_per_month := N, fx_rate := R }
      = shopping_total { i with currency := Currency.USD, usd_value := N / R } :=
  rfl

/-- Witness for C7 at spec scenario 5: 150000 NGN at rate 1500. -/
theorem C7_currency_equivalence_witness :
    shopping_total { ex1 with currency := Currency.NGN, ngn_per_month := 150000, fx_rate := 1500 }
      = shopping_total { ex1 with currency := Currency.USD, usd_value := 150000 / 1500 } :=
  C7_currency_equivalence ex1 150000 1500 (by norm_num)

/-- C10: under the sidebar bounds (all quantities non-negative, grid factor
non-negative, FX rate at least 1) every subtotal, the grand totals and the
daily/weekly/monthly projections are non-negative. -/
theorem C10_totals_nonneg (i : RawInputs) (h : NonnegInputs i) :
    0 ≤ transport_total i ∧ 0 ≤ electricity_total i ∧ 0 ≤ diet_total i ∧
    0 ≤ shopping_total i ∧ 0 ≤ grand_total_kg i ∧ 0 ≤ grand_total_t i ∧
    0 ≤ daily_kg i ∧ 0 ≤ weekly_kg i ∧ 0 ≤ monthly_kg i := by
  obtain ⟨hdv, hfl, hbus, hgrid, hkwh, hbeef, hchick, husd, hngn, hfx⟩ := h
  have hcar : 0 ≤ car_per_week_kg i := by
    unfold car_per_week_kg miles_per_week km_per_week
    split_ifs
    · exact mul_nonneg hdv (EF_nonneg _)
    · exact mul_nonneg hdv (EF_nonneg _)
  have hspend : 0 ≤ spend_usd i := by
    unfold spend_usd
    split_ifs
    · exact husd
    · exact div_nonneg hngn (le_trans zero_le_one hfx)
  have ht : 0 ≤ transport_total i :=
    add_nonneg
      (add_nonneg (mul_nonneg hcar (by norm_num)) (mul_nonneg hfl (EF_nonneg _)))
      (mul_nonneg (mul_nonneg hbus (by norm_num)) (EF_nonneg _))
  have he : 0 ≤ electricity_total i :=
    mul_nonneg (mul_nonneg hkwh (by norm_num)) hgrid
  have hd : 0 ≤ diet_total i :=
    add_nonneg (mul_nonneg (mul_nonneg hbeef (by norm_num)) (EF_nonneg _))
      (mul_nonneg (mul_nonneg hchick (by norm_num)) (EF_nonneg _))
  have hs : 0 ≤ shopping_total i :=
    mul_nonneg (mul_nonneg hspend (by norm_num)) (EF_nonneg _)
  have hg : 0 ≤ grand_total_kg i := add_nonneg (add_nonneg (add_nonneg ht he) hd) hs
  exact ⟨ht, he, hd, hs, hg, div_nonneg hg (by norm_num), div_nonneg hg (by norm_num),
    div_nonneg hg (by norm_num), div_nonneg hg (by norm_num)⟩

/-- Witness for C10 at spec scenario 1. -/
theorem C10_totals_nonneg_witness :
    NonnegInputs ex1 ∧ 0 ≤ transport_total ex1 :=
  ⟨by norm_num [NonnegInputs, ex1],
   (C10_totals_nonneg ex1 (by norm_num [NonnegInputs, ex1])).1⟩

/-- C5: when none of the four rules fires (beef at most 0.5 kg/week, the
active distance at or below its unit threshold, electricity at most 200
kWh/month, flights at most 3000 km/year), the suggestion list is exactly the
single fallback affirmation. -/
theorem C5_fallback_only (i : RawInputs)
    (hb : i.beef_kg_per_week ≤ 0.5)
    (hc : ¬ carRuleFires i)
    (he : i.kwh_per_month ≤ 200)
    (hf : i.flight_km_per_year ≤ 3000) :
    suggestions i = [fallbackMsg] := by
  have hb' := not_lt.mpr hb
  have he' := not_lt.mpr he
  have hf' := not_lt.mpr hf
  by_cases hu : i.distance_unit = DistanceUnit.miles
  · have hm : ¬ (100 < miles_per_week i) := by simpa [carRuleFires, hu] using hc
    simp [suggestions, hu, hb', he', hf', hm]
  · have hk : ¬ (160 < km_per_week i) := by simpa [carRuleFires, hu] using hc
    simp [suggestions, hu, hb', he', hf', hk]

/-- Witness for C5 at the all-zero input. -/
theorem C5_fallback_only_witness :
    suggestions exZero = [fallbackMsg] :=
  C5_fallback_only exZero (by norm_num [exZero])
    (by norm_num [carRuleFires, exZero, km_per_week, miles_per_week])
    (by norm_num [exZero]) (by norm_num [exZero])

/-- Strings of the other rules and of the fallback differ from the
car-distance message. -/
theorem carMsg_ne_others :
    carMsg ≠ beefMsg ∧ carMsg ≠ elecMsg ∧ carMsg ≠ flightMsg ∧ carMsg ≠ fallbackMsg := by
  refine ⟨?_, ?_, ?_, ?_⟩ <;> decide

/-- C6: the car-distance message appears in the suggestions exactly when the
active unit's weekly distance exceeds its own threshold (100 miles or 160
km), and the inactive unit's quantity is zero. -/
theorem C6_car_rule (i : RawInputs) :
    (carMsg ∈ suggestions i ↔ carRuleFires i) ∧
    (i.distance_unit = DistanceUnit.miles → km_per_week i = 0) ∧
    (i.distance_unit = DistanceUnit.km → miles_per_week i = 0) := by
  obtain ⟨h1, h2, h3, h4⟩ := carMsg_ne_others
  refine ⟨?_, ?_, ?_⟩
  · simp only [suggestions, carRuleFires]
    split_ifs <;> simp_all
  · intro hu; simp [km_per_week, hu]
  · intro hu; simp [miles_per_week, hu]

/-- Witness for C6: 150 miles per week with the miles unit selected triggers
the rule. -/
theorem C6_car_rule_witness :
    carMsg ∈ suggestions { ex1 with distance_unit := DistanceUnit.miles, distance_value := 150 } :=
  (C6_car_rule { ex1 with distance_unit := DistanceUnit.miles, distance_value := 150 }).1.mpr
    (by norm_num [carRuleFires, miles_per_week, ex1])

/-- Every id in the table is bounded by `maxId`. -/
theorem id_le_maxId {r : HistoryRecord} {db : List HistoryRecord} (h : r ∈ db) :
    r.id ≤ maxId db := by
  induction db with
  | nil => cases h
  | cons x xs ih =>
    rcases List.mem_cons.mp h with h | h
    · exact h ▸ le_max_left _ _
    · exact le_trans (ih h) (le_max_right _ _)

/-- On reachable table states the ids are strictly increasing in insertion
order: `save_run` only appends rows with a fresh, strictly larger id. -/
theorem reachable_ids_increasing {db : List HistoryRecord} (h : Reachable db) :
    db.Pairwise (fun a b => a.id < b.id) := by
  induction h with
  | nil => exact List.Pairwise.nil
  | save ts ij tj _ ih =>
    unfold insertRun
    refine List.pairwise_append.mpr ⟨ih, List.pairwise_singleton _ _, ?_⟩
    intro a ha b hb
    rcases List.mem_singleton.mp hb with rfl
    exact Nat.lt_succ_of_le (id_le_maxId ha)

/-- Two pairwise properties of a list combine pointwise. -/
theorem pairwise_conj {α : Type} {R S : α → α → Prop} :
    ∀ {l : List α}, l.Pairwise R → l.Pairwise S →
      l.Pairwise (fun a b => R a b ∧ S a b) := by
  intro l h1 h2
  induction l with
  | nil => exact List.Pairwise.nil
  | cons x xs ih =>
    rw [List.pairwise_cons] at h1 h2 ⊢
    exact ⟨fun b hb => ⟨h1.1 b hb, h2.1 b hb⟩, ih h1.2 h2.2⟩

/-- C8: on every table state the app can produce, `load_runs` succeeds and
returns all stored records ordered strictly descending by id; on the empty
table it returns the empty sequence, not an error. -/
theorem C8_load_runs_ordered (db : List HistoryRecord) (h : Reachable db) :
    load_runs true db = Except.ok (orderByIdDesc db) ∧
    List.Perm (orderByIdDesc db) db ∧
    (orderByIdDesc db).Pairwise (fun a b => b.id < a.id) ∧
    load_runs true [] = Except.ok [] := by
  have hperm : List.Perm (orderByIdDesc db) db := by
    unfold orderByIdDesc
    exact List.perm_insertionSort _ db
  have hsorted : (orderByIdDesc db).Pairwise (fun a b => b.id ≤ a.id) := by
    unfold orderByIdDesc
    exact List.sorted_insertionSort _ db
  have hne : (orderByIdDesc db).Pairwise (fun a b => a.id ≠ b.id) := by
    have hdb : db.Pairwise (fun a b => a.id ≠ b.id) :=
      (reachable_ids_increasing h).imp (fun hlt => Nat.ne_of_lt hlt)
    exact (hperm.pairwise_iff (by intro x y hab; exact hab.symm)).mpr hdb
  refine ⟨rfl, hperm, ?_, rfl⟩
  exact (pairwise_conj hsorted hne).imp
    (fun hab => lt_of_le_of_ne hab.1 (Ne.symm hab.2))

/-- Witness for C8 on a two-row table produced by two saves. -/
theorem C8_load_runs_ordered_witness :
    load_runs true exDb = Except.ok (orderByIdDesc exDb) ∧
    List.Perm (orderByIdDesc exDb) exDb ∧
    (orderByIdDesc exDb).Pairwise (fun a b => b.id < a.id) ∧
    load_runs true [] = Except.ok [] :=
  C8_load_runs_ordered exDb
    (Reachable.save ("t2") (JsonVal.obj []) (JsonVal.obj [])
      (Reachable.save ("t1") (JsonVal.obj []) (JsonVal.obj []) Reachable.nil))

/-- C9: serializing the totals payload and parsing it back recovers exactly
the four subtotals and both grand totals of the run. -/
theorem C9_totals_roundtrip (i : RawInputs) :
    parse_totals (totals_payload i)
      = some
          ⟨transport_total i, electricity_total i, diet_total i,
           shopping_total i, grand_total_kg i, grand_total_t i⟩ :=
  rfl

/-- C3 failing input: when the backing store is unavailable, `save_run` and
`load_runs` do fail with the storage condition, but the history section has
no handler: it propagates the failure instead of rendering the no-history
notice, so the page render aborts rather than degrading gracefully. -/
theorem C3_storage_failure_propagates :
    save_run false [] ("t") (JsonVal.obj []) (JsonVal.obj [])
        = Except.error StorageError.unavailable ∧
    load_runs false [] = Except.error StorageError.unavailable ∧
    history_block false [] = Except.error (RunFailure.storage StorageError.unavailable) ∧
    history_block false [] ≠ Except.ok HistoryView.noHistory :=
  ⟨rfl, rfl, rfl, fun hcontra => Except.noConfusion hcontra⟩

/-- C4 failing input: with one malformed and one well-formed stored record,
the history loop aborts the whole listing (the well-formed record is parseable
on its own, but nothing is rendered), instead of skipping the bad record. -/
theorem C4_malformed_record_aborts_listing :
    history_block true exDbMixed = Except.error RunFailure.malformed ∧
    parse_history_row ⟨2, "t2", JsonVal.obj [], goodTotals⟩
        = some ⟨"t2", JsonVal.num 10, JsonVal.num 1, JsonVal.num 2,
                JsonVal.num 3, JsonVal.num 4⟩ :=
  ⟨rfl, rfl⟩

end CarbonApp
